import Mathlib

/-!
Shallow embedding of the RecipeHub REST backend (Express + Mongoose) in Lean 4.

Ids (Mongo ObjectIds) are modelled as `Nat`; the store is the triple of the
three mutable collections (recipes, comments, folders).  Each Express route
handler becomes a pure function `Store → args → Except ErrResp (result × Store)`;
an `ErrResp` carries the HTTP status and the `msg` string exactly as the source
sends them, and an error return means no mutation was persisted (in the source,
every `save`/`deleteOne`/`deleteMany` happens after the last early return).

JavaScript truthiness matters in several handlers (`if (title) ...`,
`x || 'Forked recipe'`): for strings the falsy value is `""`, for numbers `0`,
while arrays are always truthy; the helpers below reproduce this.
-/

namespace RecipeHub

/-- An entry of an embedded `likes` array: `{ user: ObjectId }`. -/
structure Like where
  user : Nat
deriving DecidableEq, Repr

/-- An entry of `Recipe.ingredients`: name, quantity, optional unit. -/
structure Ingredient where
  name : String
  quantity : String
  unit : Option String
deriving DecidableEq, Repr

/-- An entry of `Recipe.instructions`: step number and text. -/
structure Instruction where
  step : Nat
  text : String
deriving DecidableEq, Repr

/-- A document of the `recipe` collection (models/Recipe.js).  Schema defaults:
`isForked := false`, `tags := []`, `likes := []`; `image`, `parentRecipe` and
`modifications` are absent unless set. -/
structure Recipe where
  id : Nat
  user : Nat
  title : String
  description : String
  ingredients : List Ingredient
  instructions : List Instruction
  cookingTime : Nat
  servings : Nat
  image : Option String
  tags : List String
  parentRecipe : Option Nat
  isForked : Bool
  modifications : Option String
  likes : List Like
deriving DecidableEq, Repr

/-- A document of the `comment` collection (models/Comment.js). -/
structure Comment where
  id : Nat
  user : Nat
  recipe : Nat
  text : String
  name : Option String
  avatar : Option String
  likes : List Like
deriving DecidableEq, Repr

/-- A document of the `folder` collection (models/Folder.js). -/
structure Folder where
  id : Nat
  user : Nat
  name : String
  description : Option String
  recipes : List Nat
  isPublic : Bool
deriving DecidableEq, Repr

/-- The document database: the three collections the claims touch. -/
structure Store where
  recipes : List Recipe
  comments : List Comment
  folders : List Folder
deriving DecidableEq, Repr

/-- An HTTP error response: status code and the `msg` string from the source. -/
structure ErrResp where
  status : Nat
  msg : String
deriving DecidableEq, Repr

/-- `Recipe.findById`. -/
def findRecipe (s : Store) (rid : Nat) : Option Recipe :=
  s.recipes.find? (fun r => r.id == rid)

/-- `Comment.findById`. -/
def findComment (s : Store) (cid : Nat) : Option Comment :=
  s.comments.find? (fun c => c.id == cid)

/-- `Folder.findById`. -/
def findFolder (s : Store) (fid : Nat) : Option Folder :=
  s.folders.find? (fun f => f.id == fid)

/-- `recipe.save()` / `Recipe.findByIdAndUpdate(id, {$set:..})`: replace the
document with the given id. -/
def saveRecipe (s : Store) (r : Recipe) : Store :=
  { s with recipes := s.recipes.map (fun x => if x.id == r.id then r else x) }

/-- `comment.save()`: replace the comment document with the given id. -/
def saveComment (s : Store) (c : Comment) : Store :=
  { s with comments := s.comments.map (fun x => if x.id == c.id then c else x) }

/-- `folder.save()`: replace the folder document with the given id. -/
def saveFolder (s : Store) (f : Folder) : Store :=
  { s with folders := s.folders.map (fun x => if x.id == f.id then f else x) }

/-- JavaScript `x || default` on a possibly-absent string: `undefined` and the
empty string are falsy, every other string wins. -/
def jsOrString (x : Option String) (dflt : String) : String :=
  match x with
  | some t => if t == "" then dflt else t
  | none => dflt

/-- `recipe.deleteOne()`: drop the recipe document with the given id,
touching nothing else. -/
def recipeDeleteOne (s : Store) (rid : Nat) : Store :=
  { s with recipes := s.recipes.filter (fun r => r.id != rid) }

/-- `Comment.deleteMany({ recipe: rid })`: drop every comment whose `recipe`
field equals `rid`, touching nothing else. -/
def commentDeleteMany (s : Store) (rid : Nat) : Store :=
  { s with comments := s.comments.filter (fun c => c.recipe != rid) }

/-- DELETE /api/recipes/:id (routes/recipes.js): look the recipe up, 404 if
absent, 401 unless the requester owns it, then `recipe.deleteOne()` followed by
`Comment.deleteMany({recipe: id})` — recipe first, comments second. -/
def deleteRecipe (s : Store) (rid userId : Nat) : Except ErrResp Store :=
  match findRecipe s rid with
  | none => .error ⟨404, "Recipe not found"⟩
  | some recipe =>
    if recipe.user != userId then
      .error ⟨401, "User not authorized"⟩
    else
      .ok (commentDeleteMany (recipeDeleteOne s rid) rid)

/-- POST /api/recipes/:id/fork: copy the content fields of the source recipe
into a new document owned by the requester, with `parentRecipe` pointing at the
source, `isForked := true` and
`modifications := req.body.modifications || 'Forked recipe'`.  `newId` stands
for the fresh ObjectId the store mints. -/
def fork (s : Store) (rid userId : Nat) (modifications : Option String)
    (newId : Nat) : Except ErrResp (Recipe × Store) :=
  match findRecipe s rid with
  | none => .error ⟨404, "Recipe not found"⟩
  | some originalRecipe =>
    let newRecipe : Recipe :=
      { id := newId
        user := userId
        title := originalRecipe.title
        description := originalRecipe.description
        ingredients := originalRecipe.ingredients
        instructions := originalRecipe.instructions
        cookingTime := originalRecipe.cookingTime
        servings := originalRecipe.servings
        image := originalRecipe.image
        tags := originalRecipe.tags
        parentRecipe := some originalRecipe.id
        isForked := true
        modifications := some (jsOrString modifications "Forked recipe")
        likes := [] }
    .ok (newRecipe, { s with recipes := s.recipes ++ [newRecipe] })

/-- PUT /api/recipes/:id/like: 404 if the recipe is absent, 400 `Recipe already
liked` when an entry for the user exists, otherwise `unshift` a new like entry
and save. -/
def likeRecipe (s : Store) (rid userId : Nat) :
    Except ErrResp (List Like × Store) :=
  match findRecipe s rid with
  | none => .error ⟨404, "Recipe not found"⟩
  | some recipe =>
    if recipe.likes.any (fun l => l.user == userId) then
      .error ⟨400, "Recipe already liked"⟩
    else
      let updated := { recipe with likes := ⟨userId⟩ :: recipe.likes }
      .ok (updated.likes, saveRecipe s updated)

/-- PUT /api/recipes/:id/unlike: 404 if absent, 400 `Recipe has not yet been
liked` when no entry for the user exists, otherwise filter out every entry of
that user and save. -/
def unlikeRecipe (s : Store) (rid userId : Nat) :
    Except ErrResp (List Like × Store) :=
  match findRecipe s rid with
  | none => .error ⟨404, "Recipe not found"⟩
  | some recipe =>
    if !(recipe.likes.any (fun l => l.user == userId)) then
      .error ⟨400, "Recipe has not yet been liked"⟩
    else
      let updated :=
        { recipe with likes := recipe.likes.filter (fun l => l.user != userId) }
      .ok (updated.likes, saveRecipe s updated)

/-- PUT /api/comments/:recipeId/:commentId/like: 404 if the comment is absent,
400 mismatch when its stored `recipe` differs from the path's recipeId, 400
`Comment already liked` when an entry for the user exists, else `unshift` and
save. -/
def likeComment (s : Store) (recipeId commentId userId : Nat) :
    Except ErrResp (List Like × Store) :=
  match findComment s commentId with
  | none => .error ⟨404, "Comment not found"⟩
  | some comment =>
    if comment.recipe != recipeId then
      .error ⟨400, "Comment does not belong to this recipe"⟩
    else if comment.likes.any (fun l => l.user == userId) then
      .error ⟨400, "Comment already liked"⟩
    else
      let updated := { comment with likes := ⟨userId⟩ :: comment.likes }
      .ok (updated.likes, saveComment s updated)

/-- PUT /api/comments/:recipeId/:commentId/unlike: 404 if absent, 400 mismatch
when the stored `recipe` differs from the path's recipeId, 400 `Comment has not
yet been liked` when no entry for the user exists, else filter out every entry
of that user and save. -/
def unlikeComment (s : Store) (recipeId commentId userId : Nat) :
    Except ErrResp (List Like × Store) :=
  match findComment s commentId with
  | none => .error ⟨404, "Comment not found"⟩
  | some comment =>
    if comment.recipe != recipeId then
      .error ⟨400, "Comment does not belong to this recipe"⟩
    else if !(comment.likes.any (fun l => l.user == userId)) then
      .error ⟨400, "Comment has not yet been liked"⟩
    else
      let updated :=
        { comment with
          likes := comment.likes.filter (fun l => l.user != userId) }
      .ok (updated.likes, saveComment s updated)

/-- GET /api/comments/:recipeId/:commentId (routes/comments.js): 404 if the
comment is absent, 400 mismatch when its stored `recipe` differs from the
path's recipeId, else return the comment body. -/
def getComment (s : Store) (recipeId commentId : Nat) :
    Except ErrResp Comment :=
  match findComment s commentId with
  | none => .error ⟨404, "Comment not found"⟩
  | some comment =>
    if comment.recipe != recipeId then
      .error ⟨400, "Comment does not belong to this recipe"⟩
    else
      .ok comment

/-- PUT /api/comments/:recipeId/:commentId: the express-validator guard
rejects an empty `text` first; then 404 if the comment is absent, 400
mismatch, 401 unless the requester authored it, else set the text and save. -/
def updateComment (s : Store) (recipeId commentId userId : Nat)
    (text : String) : Except ErrResp (Comment × Store) :=
  if text == "" then .error ⟨400, "Text is required"⟩
  else
    match findComment s commentId with
    | none => .error ⟨404, "Comment not found"⟩
    | some comment =>
      if comment.recipe != recipeId then
        .error ⟨400, "Comment does not belong to this recipe"⟩
      else if comment.user != userId then
        .error ⟨401, "User not authorized"⟩
      else
        let updated := { comment with text := text }
        .ok (updated, saveComment s updated)

/-- DELETE /api/comments/:recipeId/:commentId: both the comment and the path's
recipe are looked up; 404 if either is absent, 400 mismatch when the comment's
stored `recipe` differs from the path's recipeId, 401 unless the requester is
the comment author or the recipe owner, else `comment.deleteOne()`. -/
def deleteComment (s : Store) (recipeId commentId userId : Nat) :
    Except ErrResp Store :=
  match findComment s commentId with
  | none => .error ⟨404, "Comment not found"⟩
  | some comment =>
    match findRecipe s recipeId with
    | none => .error ⟨404, "Recipe not found"⟩
    | some recipe =>
      if comment.recipe != recipeId then
        .error ⟨400, "Comment does not belong to this recipe"⟩
      else if comment.user != userId && recipe.user != userId then
        .error ⟨401, "User not authorized"⟩
      else
        .ok { s with comments := s.comments.filter (fun c => c.id != commentId) }

/-- PUT /api/folders/:id/recipes/:recipeId (routes/folders.js): look up both
the folder and the recipe, 404 if either is absent, 401 unless the requester
owns the folder, 400 `Recipe already in folder` when the id is already a
member, else push (append) and save. -/
def addRecipeToFolder (s : Store) (folderId recipeId userId : Nat) :
    Except ErrResp (Folder × Store) :=
  match findFolder s folderId with
  | none => .error ⟨404, "Folder not found"⟩
  | some folder =>
    match findRecipe s recipeId with
    | none => .error ⟨404, "Recipe not found"⟩
    | some _ =>
      if folder.user != userId then
        .error ⟨401, "User not authorized"⟩
      else if folder.recipes.contains recipeId then
        .error ⟨400, "Recipe already in folder"⟩
      else
        let updated := { folder with recipes := folder.recipes ++ [recipeId] }
        .ok (updated, saveFolder s updated)

/-- DELETE /api/folders/:id/recipes/:recipeId: only the folder is looked up
(the recipe never is); 404 if the folder is absent, 401 unless the requester
owns it, 400 `Recipe not in folder` when the id is not a member, else filter
out every matching entry and save. -/
def removeRecipeFromFolder (s : Store) (folderId recipeId userId : Nat) :
    Except ErrResp (Folder × Store) :=
  match findFolder s folderId with
  | none => .error ⟨404, "Folder not found"⟩
  | some folder =>
    if folder.user != userId then
      .error ⟨401, "User not authorized"⟩
    else if !(folder.recipes.contains recipeId) then
      .error ⟨400, "Recipe not in folder"⟩
    else
      let updated :=
        { folder with recipes := folder.recipes.filter (fun r => r != recipeId) }
      .ok (updated, saveFolder s updated)

/-- The body of PUT /api/recipes/:id: each field is either absent from the
JSON (`none`) or present with a value. -/
structure RecipeUpdatePayload where
  title : Option String
  description : Option String
  ingredients : Option (List Ingredient)
  instructions : Option (List Instruction)
  cookingTime : Option Nat
  servings : Option Nat
  image : Option String
  tags : Option (List String)
deriving DecidableEq, Repr

/-- JavaScript `if (x) target = x` for a string field: applied iff present and
non-empty (the empty string is falsy). -/
def applyStr (old : String) (patch : Option String) : String :=
  match patch with
  | some t => if t == "" then old else t
  | none => old

/-- JavaScript `if (x) target = x` for a numeric field: applied iff present and
non-zero (0 is falsy). -/
def applyNat (old : Nat) (patch : Option Nat) : Nat :=
  match patch with
  | some n => if n == 0 then old else n
  | none => old

/-- JavaScript `if (x) target = x` for an array field: an array is always
truthy, so applied iff present. -/
def applyList {α : Type} (old : List α) (patch : Option (List α)) : List α :=
  match patch with
  | some l => l
  | none => old

/-- JavaScript `if (x) target = x` for an optional string field (`image`). -/
def applyOptStr (old : Option String) (patch : Option String) : Option String :=
  match patch with
  | some t => if t == "" then old else some t
  | none => old

/-- PUT /api/recipes/:id: 404 if the recipe is absent, 401 unless the
requester owns it; then `recipeFields` collects each of the eight content
fields that is present and truthy, and `findByIdAndUpdate` `$set`s exactly
those, leaving every other field of the document as it was. -/
def updateRecipeRoute (s : Store) (rid userId : Nat)
    (p : RecipeUpdatePayload) : Except ErrResp (Recipe × Store) :=
  match findRecipe s rid with
  | none => .error ⟨404, "Recipe not found"⟩
  | some recipe =>
    if recipe.user != userId then
      .error ⟨401, "User not authorized"⟩
    else
      let updated :=
        { recipe with
          title := applyStr recipe.title p.title
          description := applyStr recipe.description p.description
          ingredients := applyList recipe.ingredients p.ingredients
          instructions := applyList recipe.instructions p.instructions
          cookingTime := applyNat recipe.cookingTime p.cookingTime
          servings := applyNat recipe.servings p.servings
          image := applyOptStr recipe.image p.image
          tags := applyList recipe.tags p.tags }
      .ok (updated, saveRecipe s updated)

/-- The body of POST /api/recipes. -/
structure CreateRecipePayload where
  title : String
  description : String
  ingredients : List Ingredient
  instructions : List Instruction
  cookingTime : Nat
  servings : Nat
  image : Option String
  tags : Option (List String)
  parentRecipe : Option Nat
  modifications : Option String
deriving DecidableEq, Repr

/-- POST /api/recipes: the express-validator guards reject an empty title or
description and empty ingredient/instruction arrays; `image` is set iff
present and truthy, `tags` iff present; when `parentRecipe` is present the
parent must resolve, `isForked` is set to true and `modifications` is copied
only when present and truthy — no placeholder is applied here.  `newId` stands
for the fresh ObjectId the store mints. -/
def createRecipe (s : Store) (userId : Nat) (p : CreateRecipePayload)
    (newId : Nat) : Except ErrResp (Recipe × Store) :=
  if p.title == "" || p.description == "" || p.ingredients.isEmpty
      || p.instructions.isEmpty then
    .error ⟨400, "Validation failed"⟩
  else
    let base : Recipe :=
      { id := newId
        user := userId
        title := p.title
        description := p.description
        ingredients := p.ingredients
        instructions := p.instructions
        cookingTime := p.cookingTime
        servings := p.servings
        image :=
          match p.image with
          | some t => if t == "" then none else some t
          | none => none
        tags :=
          match p.tags with
          | some ts => ts
          | none => []
        parentRecipe := none
        isForked := false
        modifications := none
        likes := [] }
    match p.parentRecipe with
    | none => .ok (base, { s with recipes := s.recipes ++ [base] })
    | some pid =>
      match findRecipe s pid with
      | none => .error ⟨404, "Parent recipe not found"⟩
      | some _ =>
        let forked :=
          { base with
            parentRecipe := some pid
            isForked := true
            modifications :=
              match p.modifications with
              | some m => if m == "" then none else some m
              | none => none }
        .ok (forked, { s with recipes := s.recipes ++ [forked] })

/-! Concrete fixtures used by witnesses and counterexamples. -/

/-- A sample recipe owned by user 5. -/
def exRecipeA : Recipe :=
  { id := 1, user := 5, title := "Soup", description := "warm"
    ingredients := [⟨"salt", "1", none⟩], instructions := [⟨1, "mix"⟩]
    cookingTime := 20, servings := 2, image := none, tags := []
    parentRecipe := none, isForked := false, modifications := none, likes := [] }

/-- A second sample recipe owned by user 6. -/
def exRecipeB : Recipe := { exRecipeA with id := 2, user := 6 }

/-- A comment by user 7 on recipe 1. -/
def exCommentA : Comment :=
  { id := 10, user := 7, recipe := 1, text := "nice"
    name := none, avatar := none, likes := [] }

/-- A comment by user 7 on recipe 2. -/
def exCommentB : Comment := { exCommentA with id := 11, recipe := 2 }

/-- A folder of user 5 holding recipe id 7, which resolves to no recipe. -/
def exFolder : Folder :=
  { id := 20, user := 5, name := "faves", description := none
    recipes := [7], isPublic := false }

/-- A store with two recipes, a comment on each, and the folder. -/
def exStore : Store :=
  { recipes := [exRecipeA, exRecipeB]
    comments := [exCommentA, exCommentB]
    folders := [exFolder] }

/-- C1: when the requester owns recipe `rid`, `deleteRecipe` succeeds and its
result is `commentDeleteMany` applied after `recipeDeleteOne` — the recipe
document is removed first and the comments second; the intermediate state
still holds every comment, the final state holds exactly the comments whose
`recipe` differs from `rid` (comments of other recipes are untouched), and the
final recipes are those of the intermediate state. -/
theorem deleteRecipe_cascades (s : Store) (rid userId : Nat) (R : Recipe)
    (hfind : findRecipe s rid = some R) (hown : R.user = userId) :
    deleteRecipe s rid userId =
      .ok (commentDeleteMany (recipeDeleteOne s rid) rid)
    ∧ (recipeDeleteOne s rid).comments = s.comments
    ∧ (∀ r : Recipe, r ∈ (recipeDeleteOne s rid).recipes ↔
        r ∈ s.recipes ∧ r.id ≠ rid)
    ∧ (∀ c : Comment,
        c ∈ (commentDeleteMany (recipeDeleteOne s rid) rid).comments ↔
          c ∈ s.comments ∧ c.recipe ≠ rid)
    ∧ (commentDeleteMany (recipeDeleteOne s rid) rid).recipes
        = (recipeDeleteOne s rid).recipes := by
  refine ⟨?_, rfl, ?_, ?_, rfl⟩
  · simp [deleteRecipe, hfind, hown]
  · intro r
    simp [recipeDeleteOne, List.mem_filter]
  · intro c
    simp [commentDeleteMany, recipeDeleteOne, List.mem_filter]

/-- Witness for C1: user 5 owns recipe 1 in the sample store, and deleting it
cascades as stated. -/
theorem deleteRecipe_cascades_witness :
    (findRecipe exStore 1 = some exRecipeA ∧ exRecipeA.user = 5)
    ∧ deleteRecipe exStore 1 5 =
        .ok (commentDeleteMany (recipeDeleteOne exStore 1) 1) :=
  ⟨⟨by decide, by decide⟩,
    (deleteRecipe_cascades exStore 1 5 exRecipeA (by decide) (by decide)).1⟩

/-- Projection of a fork result onto the new recipe's `modifications` field. -/
def forkedModifications (e : Except ErrResp (Recipe × Store)) :
    Option (Option String) :=
  match e with
  | .ok (r, _) => some r.modifications
  | .error _ => none

/-- C2 counterexample: forking recipe 1 with the provided modifications text
`""` yields `modifications = "Forked recipe"`, not the provided text — the
JavaScript `req.body.modifications || 'Forked recipe'` treats the empty
string as absent. -/
theorem fork_empty_modifications_counterexample :
    forkedModifications (fork exStore 1 9 (some "") 3)
      = some (some "Forked recipe")
    ∧ some (some "Forked recipe") ≠ some (some "") := by
  refine ⟨by decide, by decide⟩

/-- C2 (amended): forking an existing recipe creates exactly one new recipe,
appended to the store, owned by the requester, copying the eight content
fields verbatim, with `parentRecipe` pointing at the source, `isForked` true
and empty likes; `modifications` equals the provided text when it is provided
and non-empty, and the placeholder `"Forked recipe"` when it is absent or
empty; the source document and all other documents are untouched. -/
theorem fork_copies_source (s : Store) (rid userId newId : Nat)
    (m : Option String) (S : Recipe) (hfind : findRecipe s rid = some S) :
    ∃ r : Recipe,
      fork s rid userId m newId = .ok (r, { s with recipes := s.recipes ++ [r] })
      ∧ r.user = userId ∧ r.title = S.title ∧ r.description = S.description
      ∧ r.ingredients = S.ingredients ∧ r.instructions = S.instructions
      ∧ r.cookingTime = S.cookingTime ∧ r.servings = S.servings
      ∧ r.image = S.image ∧ r.tags = S.tags
      ∧ r.parentRecipe = some S.id ∧ r.isForked = true ∧ r.likes = []
      ∧ (∀ t : String, m = some t → t ≠ "" → r.modifications = some t)
      ∧ ((m = none ∨ m = some "") → r.modifications = some "Forked recipe") := by
  simp only [fork, hfind]
  refine ⟨_, rfl, rfl, rfl, rfl, rfl, rfl, rfl, rfl, rfl, rfl, rfl, rfl, rfl,
    ?_, ?_⟩
  · intro t ht hne
    subst ht
    simp [jsOrString, hne]
  · rintro (hm | hm) <;> subst hm <;> simp [jsOrString]

/-- Witness for C2: forking recipe 1 as user 9 with no modifications text. -/
theorem fork_copies_source_witness :
    findRecipe exStore 1 = some exRecipeA
    ∧ ∃ r : Recipe,
        fork exStore 1 9 none 3 =
          .ok (r, { exStore with recipes := exStore.recipes ++ [r] })
        ∧ r.user = 9 ∧ r.title = exRecipeA.title
        ∧ r.description = exRecipeA.description
        ∧ r.ingredients = exRecipeA.ingredients
        ∧ r.instructions = exRecipeA.instructions
        ∧ r.cookingTime = exRecipeA.cookingTime
        ∧ r.servings = exRecipeA.servings
        ∧ r.image = exRecipeA.image ∧ r.tags = exRecipeA.tags
        ∧ r.parentRecipe = some exRecipeA.id ∧ r.isForked = true ∧ r.likes = []
        ∧ (∀ t : String, (none : Option String) = some t → t ≠ "" →
            r.modifications = some t)
        ∧ (((none : Option String) = none ∨ (none : Option String) = some "") →
            r.modifications = some "Forked recipe") :=
  ⟨by decide, fork_copies_source exStore 1 9 3 none exRecipeA (by decide)⟩

/-- C3: the like/unlike toggle, for a recipe and for a comment attached to
the addressed recipe.  `like` signals `AlreadyLiked` (400, no mutation) when
an entry for the user exists and otherwise prepends a fresh entry to the front
of the likes list; `unlike` signals `NotYetLiked` (400, no mutation) when no
entry exists and otherwise removes every entry of that user, the surviving
entries keeping their relative order (the new list is a sublist of the old
holding exactly the entries of other users). -/
theorem like_unlike_toggle (s : Store) (rid cid u : Nat) (R : Recipe)
    (C : Comment) (hR : findRecipe s rid = some R)
    (hC : findComment s cid = some C) (hrel : C.recipe = rid) :
    ((∃ l ∈ R.likes, l.user = u) →
        likeRecipe s rid u = .error ⟨400, "Recipe already liked"⟩)
    ∧ ((∀ l ∈ R.likes, l.user ≠ u) →
        likeRecipe s rid u =
          .ok (⟨u⟩ :: R.likes, saveRecipe s { R with likes := ⟨u⟩ :: R.likes }))
    ∧ ((∀ l ∈ R.likes, l.user ≠ u) →
        unlikeRecipe s rid u = .error ⟨400, "Recipe has not yet been liked"⟩)
    ∧ ((∃ l ∈ R.likes, l.user = u) →
        ∃ L : List Like,
          unlikeRecipe s rid u = .ok (L, saveRecipe s { R with likes := L })
          ∧ L.Sublist R.likes
          ∧ (∀ l : Like, l ∈ L ↔ l ∈ R.likes ∧ l.user ≠ u))
    ∧ ((∃ l ∈ C.likes, l.user = u) →
        likeComment s rid cid u = .error ⟨400, "Comment already liked"⟩)
    ∧ ((∀ l ∈ C.likes, l.user ≠ u) →
        likeComment s rid cid u =
          .ok (⟨u⟩ :: C.likes, saveComment s { C with likes := ⟨u⟩ :: C.likes }))
    ∧ ((∀ l ∈ C.likes, l.user ≠ u) →
        unlikeComment s rid cid u =
          .error ⟨400, "Comment has not yet been liked"⟩)
    ∧ ((∃ l ∈ C.likes, l.user = u) →
        ∃ L : List Like,
          unlikeComment s rid cid u = .ok (L, saveComment s { C with likes := L })
          ∧ L.Sublist C.likes
          ∧ (∀ l : Like, l ∈ L ↔ l ∈ C.likes ∧ l.user ≠ u)) := by
  refine ⟨?_, ?_, ?_, ?_, ?_, ?_, ?_, ?_⟩
  · intro hmem
    have hany : R.likes.any (fun l => l.user == u) = true := by
      simp [List.any_eq_true]
      exact hmem
    simp [likeRecipe, hR, hany]
  · intro hnone
    have hany : R.likes.any (fun l => l.user == u) = false := by
      simp [List.any_eq_false]
      exact hnone
    simp [likeRecipe, hR, hany]
  · intro hnone
    have hany : R.likes.any (fun l => l.user == u) = false := by
      simp [List.any_eq_false]
      exact hnone
    simp [unlikeRecipe, hR, hany]
  · intro hmem
    have hany : R.likes.any (fun l => l.user == u) = true := by
      simp [List.any_eq_true]
      exact hmem
    refine ⟨R.likes.filter (fun l => l.user != u), ?_, ?_, ?_⟩
    · simp [unlikeRecipe, hR, hany]
    · exact List.filter_sublist R.likes
    · intro l
      simp [List.mem_filter]
  · intro hmem
    have hany : C.likes.any (fun l => l.user == u) = true := by
      simp [List.any_eq_true]
      exact hmem
    simp [likeComment, hC, hrel, hany]
  · intro hnone
    have hany : C.likes.any (fun l => l.user == u) = false := by
      simp [List.any_eq_false]
      exact hnone
    simp [likeComment, hC, hrel, hany]
  · intro hnone
    have hany : C.likes.any (fun l => l.user == u) = false := by
      simp [List.any_eq_false]
      exact hnone
    simp [unlikeComment, hC, hrel, hany]
  · intro hmem
    have hany : C.likes.any (fun l => l.user == u) = true := by
      simp [List.any_eq_true]
      exact hmem
    refine ⟨C.likes.filter (fun l => l.user != u), ?_, ?_, ?_⟩
    · simp [unlikeComment, hC, hrel, hany]
    · exact List.filter_sublist C.likes
    · intro l
      simp [List.mem_filter]

/-- A recipe 3 of user 6 already liked by users 8 and 9, most recent first. -/
def exRecipeLiked : Recipe := { exRecipeA with id := 3, user := 6, likes := [⟨8⟩, ⟨9⟩] }

/-- A comment 12 on recipe 3 liked by user 8. -/
def exCommentLiked : Comment :=
  { exCommentA with id := 12, recipe := 3, likes := [⟨8⟩] }

/-- A store around `exRecipeLiked` and `exCommentLiked`. -/
def exStoreLiked : Store :=
  { recipes := [exRecipeLiked], comments := [exCommentLiked], folders := [] }

/-- Witness for C3: in the sample store, user 8 liking recipe 3 again is
rejected with `AlreadyLiked`. -/
theorem like_unlike_toggle_witness :
    (findRecipe exStoreLiked 3 = some exRecipeLiked
      ∧ findComment exStoreLiked 12 = some exCommentLiked
      ∧ exCommentLiked.recipe = 3
      ∧ ∃ l ∈ exRecipeLiked.likes, l.user = 8)
    ∧ likeRecipe exStoreLiked 3 8 = .error ⟨400, "Recipe already liked"⟩ :=
  ⟨⟨by decide, by decide, by decide, ⟨⟨8⟩, by decide, by decide⟩⟩,
    (like_unlike_toggle exStoreLiked 3 12 8 exRecipeLiked exCommentLiked
      (by decide) (by decide) (by decide)).1 ⟨⟨8⟩, by decide, by decide⟩⟩

/-- C4: deleting an existing comment attached to the addressed recipe succeeds
exactly when the requester authored the comment or owns the recipe; on success
exactly the comments with the addressed id are removed; any other requester
gets 401 `User not authorized` and nothing is mutated. -/
theorem deleteComment_dual_auth (s : Store) (rid cid u : Nat) (R : Recipe)
    (C : Comment) (hC : findComment s cid = some C)
    (hR : findRecipe s rid = some R) (hrel : C.recipe = rid) :
    ((∃ s₂, deleteComment s rid cid u = .ok s₂) ↔ (u = C.user ∨ u = R.user))
    ∧ ((u = C.user ∨ u = R.user) →
        deleteComment s rid cid u =
          .ok { s with comments := s.comments.filter (fun c => c.id != cid) })
    ∧ ((u ≠ C.user ∧ u ≠ R.user) →
        deleteComment s rid cid u = .error ⟨401, "User not authorized"⟩)
    ∧ (∀ c : Comment,
        c ∈ s.comments.filter (fun x => x.id != cid) ↔
          c ∈ s.comments ∧ c.id ≠ cid) := by
  have hok : (u = C.user ∨ u = R.user) →
      deleteComment s rid cid u =
        .ok { s with comments := s.comments.filter (fun c => c.id != cid) } := by
    intro hauth
    have hcond : (C.user != u && R.user != u) = false := by
      rcases hauth with h | h <;> subst h <;> simp
    simp only [deleteComment, hC, hR, hrel]
    simp [hcond]
  have herr : (u ≠ C.user ∧ u ≠ R.user) →
      deleteComment s rid cid u = .error ⟨401, "User not authorized"⟩ := by
    rintro ⟨h₁, h₂⟩
    have hcond : (C.user != u && R.user != u) = true := by
      simp [bne_iff_ne]
      exact ⟨fun he => h₁ he.symm, fun he => h₂ he.symm⟩
    simp only [deleteComment, hC, hR, hrel]
    simp [hcond]
  refine ⟨⟨?_, fun h => ⟨_, hok h⟩⟩, hok, herr, ?_⟩
  · rintro ⟨s₂, hs₂⟩
    by_contra hno
    push_neg at hno
    rw [herr ⟨hno.1, hno.2⟩] at hs₂
    exact absurd hs₂ (by simp)
  · intro c
    simp [List.mem_filter]

/-- Witness for C4: user 6 owns recipe 2, so it may delete user 7's comment
11; user 9 is neither author nor owner and is rejected. -/
theorem deleteComment_dual_auth_witness :
    (findComment exStore 11 = some exCommentB
      ∧ findRecipe exStore 2 = some exRecipeB ∧ exCommentB.recipe = 2
      ∧ ((6 : Nat) = exCommentB.user ∨ (6 : Nat) = exRecipeB.user))
    ∧ deleteComment exStore 2 11 6 =
        .ok { exStore with
                comments := exStore.comments.filter (fun c => c.id != 11) } :=
  ⟨⟨by decide, by decide, by decide, Or.inr (by decide)⟩,
    (deleteComment_dual_auth exStore 2 11 6 exRecipeB exCommentB
      (by decide) (by decide) (by decide)).2.1 (Or.inr (by decide))⟩

/-- C5 counterexample: comment 10 of the sample store exists and its stored
recipe (1) differs from the addressed recipeId 3, yet deleting it via
(recipeId 3, commentId 10) answers 404 `Recipe not found` — a not-found, not
the `ReferenceMismatch` client error — because the delete handler looks the
path's recipe up and 404s before the mismatch check. -/
theorem deleteComment_mismatch_counterexample :
    findComment exStore 10 = some exCommentA
    ∧ exCommentA.recipe = 1 ∧ (1 : Nat) ≠ 3
    ∧ deleteComment exStore 3 10 7 = .error ⟨404, "Recipe not found"⟩
    ∧ (ErrResp.mk 404 "Recipe not found"
        ≠ ⟨400, "Comment does not belong to this recipe"⟩) := by
  refine ⟨by decide, by decide, by decide, rfl, by decide⟩

/-- C5 (amended): when a comment exists but its stored `recipe` differs from
the addressed recipeId, read, update (with well-formed text), like and unlike
all answer the 400 `ReferenceMismatch` error and mutate nothing; delete
answers the same 400 provided the addressed recipeId resolves to an existing
recipe, and answers 404 `Recipe not found` when it does not. -/
theorem comment_reference_mismatch (s : Store) (rid cid u : Nat) (C : Comment)
    (hC : findComment s cid = some C) (hmis : C.recipe ≠ rid) :
    getComment s rid cid =
      .error ⟨400, "Comment does not belong to this recipe"⟩
    ∧ (∀ text : String, text ≠ "" →
        updateComment s rid cid u text =
          .error ⟨400, "Comment does not belong to this recipe"⟩)
    ∧ likeComment s rid cid u =
        .error ⟨400, "Comment does not belong to this recipe"⟩
    ∧ unlikeComment s rid cid u =
        .error ⟨400, "Comment does not belong to this recipe"⟩
    ∧ (∀ R : Recipe, findRecipe s rid = some R →
        deleteComment s rid cid u =
          .error ⟨400, "Comment does not belong to this recipe"⟩)
    ∧ (findRecipe s rid = none →
        deleteComment s rid cid u = .error ⟨404, "Recipe not found"⟩) := by
  refine ⟨?_, ?_, ?_, ?_, ?_, ?_⟩
  · simp [getComment, hC, hmis]
  · intro text ht
    simp [updateComment, hC, hmis, ht]
  · simp [likeComment, hC, hmis]
  · simp [unlikeComment, hC, hmis]
  · intro R hR
    simp [deleteComment, hC, hR, hmis]
  · intro hR
    simp [deleteComment, hC, hR]

/-- Witness for C5 (amended): comment 11 is stored on recipe 2, and fetching
it via recipeId 1 yields the mismatch error. -/
theorem comment_reference_mismatch_witness :
    (findComment exStore 11 = some exCommentB ∧ exCommentB.recipe ≠ 1)
    ∧ getComment exStore 1 11 =
        .error ⟨400, "Comment does not belong to this recipe"⟩ :=
  ⟨⟨by decide, by decide⟩,
    (comment_reference_mismatch exStore 1 11 4 exCommentB
      (by decide) (by decide)).1⟩

/-- If some folder of the list carries id `fid` and `G` carries that id, then
after replacing the documents of that id by `G` the lookup of `fid` answers
`G`. -/
theorem find?_folder_update (l : List Folder) (fid : Nat) (F G : Folder)
    (h : l.find? (fun f => f.id == fid) = some F) (hid : G.id = fid) :
    (l.map (fun x => if x.id == G.id then G else x)).find?
        (fun f => f.id == fid) = some G := by
  induction l with
  | nil => simp at h
  | cons a t ih =>
    simp only [List.map_cons]
    by_cases ha : (a.id == fid) = true
    · have ha₂ : a.id = fid := by simpa using ha
      have hhead : (if a.id == G.id then G else a) = G := by
        simp [ha₂, hid]
      rw [hhead]
      simp [List.find?_cons, hid]
    · have ha₂ : ¬ a.id = fid := by simpa using ha
      have hhead : (if a.id == G.id then G else a) = a := by
        simp [hid, ha₂]
      rw [List.find?_cons] at h
      simp only [ha, Bool.false_eq_true, if_false] at h
      rw [hhead]
      rw [List.find?_cons]
      simp only [ha, Bool.false_eq_true, if_false]
      exact ih h

/-- If a folder with the given id is found and `G` keeps that id, the save of
`G` is what a later lookup of the id returns. -/
theorem findFolder_saveFolder (s : Store) (fid : Nat) (F G : Folder)
    (h : findFolder s fid = some F) (hid : G.id = fid) :
    findFolder (saveFolder s G) fid = some G :=
  find?_folder_update s.folders fid F G h hid

/-- C6: folder membership for a folder owned by the requester and an existing
recipe.  Adding an already-present recipe answers `AlreadyMember` (400) and
mutates nothing; adding an absent one appends it at the end.  Removing an
absent recipe answers `NotMember` (400); removing a present one removes every
occurrence, keeping the others in order.  Adding twice from a state not
containing the recipe leaves the folder containing it exactly once, the
second call answering `AlreadyMember`. -/
theorem folder_membership (s : Store) (fid rid u : Nat) (F : Folder)
    (R : Recipe) (hF : findFolder s fid = some F) (hown : F.user = u)
    (hR : findRecipe s rid = some R) :
    (rid ∈ F.recipes →
        addRecipeToFolder s fid rid u =
          .error ⟨400, "Recipe already in folder"⟩)
    ∧ (rid ∉ F.recipes →
        addRecipeToFolder s fid rid u =
          .ok ({ F with recipes := F.recipes ++ [rid] },
            saveFolder s { F with recipes := F.recipes ++ [rid] }))
    ∧ (rid ∉ F.recipes →
        removeRecipeFromFolder s fid rid u =
          .error ⟨400, "Recipe not in folder"⟩)
    ∧ (rid ∈ F.recipes →
        ∃ L : List Nat,
          removeRecipeFromFolder s fid rid u =
            .ok ({ F with recipes := L }, saveFolder s { F with recipes := L })
          ∧ rid ∉ L ∧ L.Sublist F.recipes
          ∧ (∀ x : Nat, x ∈ L ↔ x ∈ F.recipes ∧ x ≠ rid))
    ∧ (rid ∉ F.recipes →
        addRecipeToFolder
            (saveFolder s { F with recipes := F.recipes ++ [rid] }) fid rid u =
          .error ⟨400, "Recipe already in folder"⟩
        ∧ (F.recipes ++ [rid]).count rid = 1) := by
  subst hown
  have hid : F.id = fid := by
    have := List.find?_some hF
    simpa using this
  refine ⟨?_, ?_, ?_, ?_, ?_⟩
  · intro hmem
    simp [addRecipeToFolder, hF, hR, hmem]
  · intro hmem
    simp [addRecipeToFolder, hF, hR, hmem]
  · intro hmem
    simp [removeRecipeFromFolder, hF, hmem]
  · intro hmem
    refine ⟨F.recipes.filter (fun r => r != rid), ?_, ?_, ?_, ?_⟩
    · simp [removeRecipeFromFolder, hF, hmem]
    · simp [List.mem_filter]
    · exact List.filter_sublist F.recipes
    · intro x
      simp [List.mem_filter]
  · intro hmem
    constructor
    · have hF₂ : findFolder (saveFolder s { F with recipes := F.recipes ++ [rid] })
          fid = some { F with recipes := F.recipes ++ [rid] } :=
        findFolder_saveFolder s fid F _ hF hid
      have hR₂ : findRecipe
          (saveFolder s { F with recipes := F.recipes ++ [rid] }) rid = some R :=
        hR
      simp [addRecipeToFolder, hF₂, hR₂]
    · have h0 : F.recipes.count rid = 0 := List.count_eq_zero.mpr hmem
      simp [List.count_append, h0]

/-- Witness for C6: adding recipe 1 to folder 20 (owned by user 5, not yet a
member) appends it. -/
theorem folder_membership_witness :
    (findFolder exStore 20 = some exFolder ∧ exFolder.user = 5
      ∧ findRecipe exStore 1 = some exRecipeA ∧ 1 ∉ exFolder.recipes)
    ∧ addRecipeToFolder exStore 20 1 5 =
        .ok ({ exFolder with recipes := exFolder.recipes ++ [1] },
          saveFolder exStore { exFolder with recipes := exFolder.recipes ++ [1] }) :=
  ⟨⟨by decide, by decide, by decide, by decide⟩,
    (folder_membership exStore 20 1 5 exFolder exRecipeA
      (by decide) (by decide) (by decide)).2.1 (by decide)⟩

/-- A store holding only the folder, so recipe 7 (a member of the folder's
list) resolves to nothing. -/
def exStoreDangling : Store := { recipes := [], comments := [], folders := [exFolder] }

/-- C7 counterexample: folder 20 exists and is owned by user 5, recipe 7 does
not exist, yet removing recipe 7 from the folder succeeds — the remove
handler never looks the recipe up, so no `NotFound` is returned. -/
theorem removeRecipe_no_existence_check_counterexample :
    findRecipe exStoreDangling 7 = none
    ∧ findFolder exStoreDangling 20 = some exFolder
    ∧ removeRecipeFromFolder exStoreDangling 20 7 5 =
        .ok ({ exFolder with recipes := [] },
          saveFolder exStoreDangling { exFolder with recipes := [] }) := by
  refine ⟨by decide, by decide, rfl⟩

/-- C7 (amended): the add-recipe-to-folder handler verifies that both the
folder and the recipe resolve and answers 404 `NotFound`, mutating nothing,
when either is missing; the remove handler verifies only the folder — it
answers 404 when the folder is missing, but when the folder resolves it
proceeds on the membership list alone, succeeding even when the listed recipe
id resolves to no recipe. -/
theorem folder_membership_existence_checks (s : Store) (fid rid u : Nat) :
    (findFolder s fid = none →
        addRecipeToFolder s fid rid u = .error ⟨404, "Folder not found"⟩
        ∧ removeRecipeFromFolder s fid rid u = .error ⟨404, "Folder not found"⟩)
    ∧ (∀ F : Folder, findFolder s fid = some F → findRecipe s rid = none →
        addRecipeToFolder s fid rid u = .error ⟨404, "Recipe not found"⟩)
    ∧ (∀ F : Folder, findFolder s fid = some F → F.user = u →
        rid ∈ F.recipes → findRecipe s rid = none →
        removeRecipeFromFolder s fid rid u =
          .ok ({ F with recipes := F.recipes.filter (fun r => r != rid) },
            saveFolder s
              { F with recipes := F.recipes.filter (fun r => r != rid) })) := by
  refine ⟨?_, ?_, ?_⟩
  · intro h
    exact ⟨by simp [addRecipeToFolder, h], by simp [removeRecipeFromFolder, h]⟩
  · intro F hF hR
    simp [addRecipeToFolder, hF, hR]
  · intro F hF hown hmem hR
    subst hown
    simp [removeRecipeFromFolder, hF, hmem]

/-- Witness for C7 (amended): in the dangling store, adding the missing
recipe 7 to folder 20 is rejected with 404, while removing it succeeds. -/
theorem folder_membership_existence_checks_witness :
    (findFolder exStoreDangling 20 = some exFolder ∧ exFolder.user = 5
      ∧ 7 ∈ exFolder.recipes ∧ findRecipe exStoreDangling 7 = none)
    ∧ addRecipeToFolder exStoreDangling 20 7 5 =
        .error ⟨404, "Recipe not found"⟩
    ∧ removeRecipeFromFolder exStoreDangling 20 7 5 =
        .ok ({ exFolder with recipes := exFolder.recipes.filter (fun r => r != 7) },
          saveFolder exStoreDangling
            { exFolder with recipes := exFolder.recipes.filter (fun r => r != 7) }) :=
  ⟨⟨by decide, by decide, by decide, by decide⟩,
    (folder_membership_existence_checks exStoreDangling 20 7 5).2.1 exFolder
      (by decide) (by decide),
    (folder_membership_existence_checks exStoreDangling 20 7 5).2.2 exFolder
      (by decide) (by decide) (by decide) (by decide)⟩

/-- Projection of an update result onto the updated recipe's servings. -/
def updatedServings (e : Except ErrResp (Recipe × Store)) : Option Nat :=
  match e with
  | .ok (r, _) => some r.servings
  | .error _ => none

/-- The payload carrying only `servings := 0`. -/
def exPayloadServingsZero : RecipeUpdatePayload :=
  { title := none, description := none, ingredients := none
    instructions := none, cookingTime := none, servings := some 0
    image := none, tags := none }

/-- C8 counterexample: recipe 1 has servings 2; the owner sends an update
whose payload contains `servings: 0`.  The field is present, yet the stored
value stays 2 — `if (servings)` skips the falsy 0 — so a present field is not
always applied. -/
theorem update_present_field_skipped_counterexample :
    exPayloadServingsZero.servings = some 0
    ∧ updatedServings (updateRecipeRoute exStore 1 5 exPayloadServingsZero)
        = some 2
    ∧ some (2 : Nat) ≠ some 0 := by
  refine ⟨by decide, rfl, by decide⟩

/-- C8 (amended): for an owner update, each of the eight content fields is
set to its payload value exactly when that value is present and truthy —
strings when non-empty, numbers when non-zero, arrays whenever present — and
is otherwise left at its old value; `user`, `likes`, `parentRecipe`,
`isForked`, `modifications`, and the id are unchanged, and the result is
persisted over the old document. -/
theorem update_recipe_merge_patch (s : Store) (rid u : Nat) (R : Recipe)
    (p : RecipeUpdatePayload) (hR : findRecipe s rid = some R)
    (hown : R.user = u) :
    ∃ r : Recipe,
      updateRecipeRoute s rid u p = .ok (r, saveRecipe s r)
      ∧ (∀ t, p.title = some t → t ≠ "" → r.title = t)
      ∧ ((p.title = none ∨ p.title = some "") → r.title = R.title)
      ∧ (∀ t, p.description = some t → t ≠ "" → r.description = t)
      ∧ ((p.description = none ∨ p.description = some "") →
          r.description = R.description)
      ∧ (∀ l, p.ingredients = some l → r.ingredients = l)
      ∧ (p.ingredients = none → r.ingredients = R.ingredients)
      ∧ (∀ l, p.instructions = some l → r.instructions = l)
      ∧ (p.instructions = none → r.instructions = R.instructions)
      ∧ (∀ n, p.cookingTime = some n → n ≠ 0 → r.cookingTime = n)
      ∧ ((p.cookingTime = none ∨ p.cookingTime = some 0) →
          r.cookingTime = R.cookingTime)
      ∧ (∀ n, p.servings = some n → n ≠ 0 → r.servings = n)
      ∧ ((p.servings = none ∨ p.servings = some 0) → r.servings = R.servings)
      ∧ (∀ t, p.image = some t → t ≠ "" → r.image = some t)
      ∧ ((p.image = none ∨ p.image = some "") → r.image = R.image)
      ∧ (∀ l, p.tags = some l → r.tags = l)
      ∧ (p.tags = none → r.tags = R.tags)
      ∧ r.user = R.user ∧ r.likes = R.likes ∧ r.parentRecipe = R.parentRecipe
      ∧ r.isForked = R.isForked ∧ r.modifications = R.modifications
      ∧ r.id = R.id := by
  subst hown
  simp only [updateRecipeRoute, hR, bne_self_eq_false, Bool.false_eq_true,
    if_false]
  refine ⟨_, rfl, ?_, ?_, ?_, ?_, ?_, ?_, ?_, ?_, ?_, ?_, ?_, ?_, ?_, ?_,
    ?_, ?_, rfl, rfl, rfl, rfl, rfl, rfl⟩
  · intro t ht hne
    simp [applyStr, ht, hne]
  · rintro (ht | ht) <;> simp [applyStr, ht]
  · intro t ht hne
    simp [applyStr, ht, hne]
  · rintro (ht | ht) <;> simp [applyStr, ht]
  · intro l hl
    simp [applyList, hl]
  · intro hl
    simp [applyList, hl]
  · intro l hl
    simp [applyList, hl]
  · intro hl
    simp [applyList, hl]
  · intro n hn hne
    simp [applyNat, hn, hne]
  · rintro (hn | hn) <;> simp [applyNat, hn]
  · intro n hn hne
    simp [applyNat, hn, hne]
  · rintro (hn | hn) <;> simp [applyNat, hn]
  · intro t ht hne
    simp [applyOptStr, ht, hne]
  · rintro (ht | ht) <;> simp [applyOptStr, ht]
  · intro l hl
    simp [applyList, hl]
  · intro hl
    simp [applyList, hl]

/-- The payload renaming recipe 1 and clearing nothing else. -/
def exPayloadTitle : RecipeUpdatePayload :=
  { exPayloadServingsZero with title := some "Stew", servings := none }

/-- Witness for C8 (amended): the owner renames recipe 1 to `Stew`. -/
theorem update_recipe_merge_patch_witness :
    (findRecipe exStore 1 = some exRecipeA ∧ exRecipeA.user = 5)
    ∧ ∃ r : Recipe,
        updateRecipeRoute exStore 1 5 exPayloadTitle = .ok (r, saveRecipe exStore r)
        ∧ (∀ t, exPayloadTitle.title = some t → t ≠ "" → r.title = t)
        ∧ ((exPayloadTitle.title = none ∨ exPayloadTitle.title = some "") →
            r.title = exRecipeA.title)
        ∧ (∀ t, exPayloadTitle.description = some t → t ≠ "" →
            r.description = t)
        ∧ ((exPayloadTitle.description = none
              ∨ exPayloadTitle.description = some "") →
            r.description = exRecipeA.description)
        ∧ (∀ l, exPayloadTitle.ingredients = some l → r.ingredients = l)
        ∧ (exPayloadTitle.ingredients = none →
            r.ingredients = exRecipeA.ingredients)
        ∧ (∀ l, exPayloadTitle.instructions = some l → r.instructions = l)
        ∧ (exPayloadTitle.instructions = none →
            r.instructions = exRecipeA.instructions)
        ∧ (∀ n, exPayloadTitle.cookingTime = some n → n ≠ 0 →
            r.cookingTime = n)
        ∧ ((exPayloadTitle.cookingTime = none
              ∨ exPayloadTitle.cookingTime = some 0) →
            r.cookingTime = exRecipeA.cookingTime)
        ∧ (∀ n, exPayloadTitle.servings = some n → n ≠ 0 → r.servings = n)
        ∧ ((exPayloadTitle.servings = none ∨ exPayloadTitle.servings = some 0) →
            r.servings = exRecipeA.servings)
        ∧ (∀ t, exPayloadTitle.image = some t → t ≠ "" → r.image = some t)
        ∧ ((exPayloadTitle.image = none ∨ exPayloadTitle.image = some "") →
            r.image = exRecipeA.image)
        ∧ (∀ l, exPayloadTitle.tags = some l → r.tags = l)
        ∧ (exPayloadTitle.tags = none → r.tags = exRecipeA.tags)
        ∧ r.user = exRecipeA.user ∧ r.likes = exRecipeA.likes
        ∧ r.parentRecipe = exRecipeA.parentRecipe
        ∧ r.isForked = exRecipeA.isForked
        ∧ r.modifications = exRecipeA.modifications
        ∧ r.id = exRecipeA.id :=
  ⟨⟨by decide, by decide⟩,
    update_recipe_merge_patch exStore 1 5 exRecipeA exPayloadTitle
      (by decide) (by decide)⟩

/-- Every likes list in the store mentions each user at most once. -/
def StoreLikesUnique (s : Store) : Prop :=
  (∀ r ∈ s.recipes, (r.likes.map Like.user).Nodup)
  ∧ (∀ c ∈ s.comments, (c.likes.map Like.user).Nodup)

instance (s : Store) : Decidable (StoreLikesUnique s) := by
  unfold StoreLikesUnique
  infer_instance

/-- Prepending a like for a user not yet in the list keeps the users
duplicate-free. -/
theorem nodup_users_cons {L : List Like} {u : Nat}
    (h : (L.map Like.user).Nodup)
    (hnew : L.any (fun l => l.user == u) = false) :
    (((⟨u⟩ : Like) :: L).map Like.user).Nodup := by
  simp only [List.map_cons]
  refine List.nodup_cons.mpr ⟨?_, h⟩
  simp only [List.any_eq_false, beq_iff_eq] at hnew
  simp only [List.mem_map]
  rintro ⟨l, hl, hlu⟩
  exact hnew l hl hlu

/-- Filtering a likes list keeps the users duplicate-free. -/
theorem nodup_users_filter {L : List Like} (p : Like → Bool)
    (h : (L.map Like.user).Nodup) : ((L.filter p).map Like.user).Nodup :=
  List.Nodup.sublist ((L.filter_sublist).map Like.user) h

/-- Saving a recipe whose likes users are duplicate-free preserves the store
invariant. -/
theorem storeLikesUnique_saveRecipe {s : Store} {r : Recipe}
    (hs : StoreLikesUnique s) (hr : (r.likes.map Like.user).Nodup) :
    StoreLikesUnique (saveRecipe s r) := by
  refine ⟨?_, hs.2⟩
  intro x hx
  simp only [saveRecipe, List.mem_map] at hx
  obtain ⟨y, hy, hxy⟩ := hx
  by_cases hid : (y.id == r.id) = true
  · rw [if_pos hid] at hxy
    exact hxy ▸ hr
  · rw [if_neg hid] at hxy
    exact hxy ▸ hs.1 y hy

/-- Saving a comment whose likes users are duplicate-free preserves the store
invariant. -/
theorem storeLikesUnique_saveComment {s : Store} {c : Comment}
    (hs : StoreLikesUnique s) (hc : (c.likes.map Like.user).Nodup) :
    StoreLikesUnique (saveComment s c) := by
  refine ⟨hs.1, ?_⟩
  intro x hx
  simp only [saveComment, List.mem_map] at hx
  obtain ⟨y, hy, hxy⟩ := hx
  by_cases hid : (y.id == c.id) = true
  · rw [if_pos hid] at hxy
    exact hxy ▸ hc
  · rw [if_neg hid] at hxy
    exact hxy ▸ hs.2 y hy

/-- Appending a recipe whose likes users are duplicate-free preserves the
store invariant. -/
theorem storeLikesUnique_appendRecipe {s : Store} {r : Recipe}
    (hs : StoreLikesUnique s) (hr : (r.likes.map Like.user).Nodup) :
    StoreLikesUnique { s with recipes := s.recipes ++ [r] } := by
  refine ⟨?_, hs.2⟩
  intro x hx
  rcases List.mem_append.mp hx with hx | hx
  · exact hs.1 x hx
  · rw [List.mem_singleton.mp hx]
    exact hr

/-- C9: likes-list uniqueness is an invariant: starting from a store in which
every recipe's and every comment's likes list mentions each user at most
once, every operation of the embedded system — like/unlike on recipes and
comments, recipe creation, update, fork and delete, comment update and
delete, folder membership changes — yields a store in which it still holds. -/
theorem likes_unique_invariant (s : Store) (hs : StoreLikesUnique s) :
    (∀ rid u L s₂, likeRecipe s rid u = .ok (L, s₂) → StoreLikesUnique s₂)
    ∧ (∀ rid u L s₂, unlikeRecipe s rid u = .ok (L, s₂) → StoreLikesUnique s₂)
    ∧ (∀ rid cid u L s₂, likeComment s rid cid u = .ok (L, s₂) →
        StoreLikesUnique s₂)
    ∧ (∀ rid cid u L s₂, unlikeComment s rid cid u = .ok (L, s₂) →
        StoreLikesUnique s₂)
    ∧ (∀ rid u s₂, deleteRecipe s rid u = .ok s₂ → StoreLikesUnique s₂)
    ∧ (∀ rid u m nid r s₂, fork s rid u m nid = .ok (r, s₂) →
        StoreLikesUnique s₂)
    ∧ (∀ u p nid r s₂, createRecipe s u p nid = .ok (r, s₂) →
        StoreLikesUnique s₂)
    ∧ (∀ rid u p r s₂, updateRecipeRoute s rid u p = .ok (r, s₂) →
        StoreLikesUnique s₂)
    ∧ (∀ rid cid u t c s₂, updateComment s rid cid u t = .ok (c, s₂) →
        StoreLikesUnique s₂)
    ∧ (∀ rid cid u s₂, deleteComment s rid cid u = .ok s₂ → StoreLikesUnique s₂)
    ∧ (∀ fid rid u f s₂, addRecipeToFolder s fid rid u = .ok (f, s₂) →
        StoreLikesUnique s₂)
    ∧ (∀ fid rid u f s₂, removeRecipeFromFolder s fid rid u = .ok (f, s₂) →
        StoreLikesUnique s₂) := by
  refine ⟨?_, ?_, ?_, ?_, ?_, ?_, ?_, ?_, ?_, ?_, ?_, ?_⟩
  · intro rid u L s₂ h
    simp only [likeRecipe] at h
    split at h
    · simp at h
    next R hfind =>
      split at h
      · simp at h
      next hany =>
        simp only [Except.ok.injEq, Prod.mk.injEq] at h
        obtain ⟨-, hs₂⟩ := h
        subst hs₂
        exact storeLikesUnique_saveRecipe hs
          (nodup_users_cons (hs.1 R (List.mem_of_find?_eq_some hfind))
            (by simpa using hany))
  · intro rid u L s₂ h
    simp only [unlikeRecipe] at h
    split at h
    · simp at h
    next R hfind =>
      split at h
      · simp at h
      next =>
        simp only [Except.ok.injEq, Prod.mk.injEq] at h
        obtain ⟨-, hs₂⟩ := h
        subst hs₂
        exact storeLikesUnique_saveRecipe hs
          (nodup_users_filter _ (hs.1 R (List.mem_of_find?_eq_some hfind)))
  · intro rid cid u L s₂ h
    simp only [likeComment] at h
    split at h
    · simp at h
    next C hfind =>
      split at h
      · simp at h
      split at h
      · simp at h
      next hany =>
        simp only [Except.ok.injEq, Prod.mk.injEq] at h
        obtain ⟨-, hs₂⟩ := h
        subst hs₂
        exact storeLikesUnique_saveComment hs
          (nodup_users_cons (hs.2 C (List.mem_of_find?_eq_some hfind))
            (by simpa using hany))
  · intro rid cid u L s₂ h
    simp only [unlikeComment] at h
    split at h
    · simp at h
    next C hfind =>
      split at h
      · simp at h
      split at h
      · simp at h
      next =>
        simp only [Except.ok.injEq, Prod.mk.injEq] at h
        obtain ⟨-, hs₂⟩ := h
        subst hs₂
        exact storeLikesUnique_saveComment hs
          (nodup_users_filter _ (hs.2 C (List.mem_of_find?_eq_some hfind)))
  · intro rid u s₂ h
    simp only [deleteRecipe] at h
    split at h
    · simp at h
    next =>
      split at h
      · simp at h
      next =>
        simp only [Except.ok.injEq] at h
        subst h
        refine ⟨?_, ?_⟩
        · intro x hx
          simp only [commentDeleteMany, recipeDeleteOne] at hx
          exact hs.1 x (List.mem_of_mem_filter hx)
        · intro x hx
          simp only [commentDeleteMany, recipeDeleteOne] at hx
          exact hs.2 x (List.mem_of_mem_filter hx)
  · intro rid u m nid r s₂ h
    simp only [fork] at h
    split at h
    · simp at h
    next =>
      simp only [Except.ok.injEq, Prod.mk.injEq] at h
      obtain ⟨-, hs₂⟩ := h
      subst hs₂
      exact storeLikesUnique_appendRecipe hs (by simp)
  · intro u p nid r s₂ h
    simp only [createRecipe] at h
    split at h
    · simp at h
    next =>
      split at h
      · simp only [Except.ok.injEq, Prod.mk.injEq] at h
        obtain ⟨-, hs₂⟩ := h
        subst hs₂
        exact storeLikesUnique_appendRecipe hs (by simp)
      next =>
        split at h
        · simp at h
        next =>
          simp only [Except.ok.injEq, Prod.mk.injEq] at h
          obtain ⟨-, hs₂⟩ := h
          subst hs₂
          exact storeLikesUnique_appendRecipe hs (by simp)
  · intro rid u p r s₂ h
    simp only [updateRecipeRoute] at h
    split at h
    · simp at h
    next R hfind =>
      split at h
      · simp at h
      next =>
        simp only [Except.ok.injEq, Prod.mk.injEq] at h
        obtain ⟨-, hs₂⟩ := h
        subst hs₂
        exact storeLikesUnique_saveRecipe hs
          (hs.1 R (List.mem_of_find?_eq_some hfind))
  · intro rid cid u t c s₂ h
    simp only [updateComment] at h
    split at h
    · simp at h
    next =>
      split at h
      · simp at h
      next C hfind =>
        split at h
        · simp at h
        split at h
        · simp at h
        next =>
          simp only [Except.ok.injEq, Prod.mk.injEq] at h
          obtain ⟨-, hs₂⟩ := h
          subst hs₂
          exact storeLikesUnique_saveComment hs
            (hs.2 C (List.mem_of_find?_eq_some hfind))
  · intro rid cid u s₂ h
    simp only [deleteComment] at h
    split at h
    · simp at h
    next =>
      split at h
      · simp at h
      next =>
        split at h
        · simp at h
        split at h
        · simp at h
        next =>
          simp only [Except.ok.injEq] at h
          subst h
          refine ⟨hs.1, ?_⟩
          intro x hx
          exact hs.2 x (List.mem_of_mem_filter hx)
  · intro fid rid u f s₂ h
    simp only [addRecipeToFolder] at h
    split at h
    · simp at h
    next =>
      split at h
      · simp at h
      next =>
        split at h
        · simp at h
        split at h
        · simp at h
        next =>
          simp only [Except.ok.injEq, Prod.mk.injEq] at h
          obtain ⟨-, hs₂⟩ := h
          subst hs₂
          exact ⟨hs.1, hs.2⟩
  · intro fid rid u f s₂ h
    simp only [removeRecipeFromFolder] at h
    split at h
    · simp at h
    next =>
      split at h
      · simp at h
      split at h
      · simp at h
      next =>
        simp only [Except.ok.injEq, Prod.mk.injEq] at h
        obtain ⟨-, hs₂⟩ := h
        subst hs₂
        exact ⟨hs.1, hs.2⟩

/-- Witness for C9: the sample liked store satisfies the invariant and still
does after user 5 likes recipe 3. -/
theorem likes_unique_invariant_witness :
    StoreLikesUnique exStoreLiked
    ∧ StoreLikesUnique
        (saveRecipe exStoreLiked
          { exRecipeLiked with likes := ⟨5⟩ :: exRecipeLiked.likes }) :=
  ⟨by decide,
    (likes_unique_invariant exStoreLiked (by decide)).1 3 5
      (⟨5⟩ :: exRecipeLiked.likes)
      (saveRecipe exStoreLiked
        { exRecipeLiked with likes := ⟨5⟩ :: exRecipeLiked.likes }) rfl⟩

/-- C10: creating a recipe with a well-formed payload whose `parentRecipe`
references an existing recipe but which carries no modifications text yields
a recipe with `isForked` true and `parentRecipe` set whose `modifications`
field is unset; the `"Forked recipe"` placeholder is applied by the dedicated
fork endpoint only, which on the same missing text stores the placeholder. -/
theorem create_as_fork_modifications_unset (s : Store) (u nid pid : Nat)
    (p : CreateRecipePayload) (P : Recipe)
    (htitle : p.title ≠ "") (hdesc : p.description ≠ "")
    (hing : p.ingredients ≠ []) (hins : p.instructions ≠ [])
    (hp : p.parentRecipe = some pid) (hP : findRecipe s pid = some P)
    (hm : p.modifications = none) :
    (∃ r : Recipe, ∃ s₂ : Store,
      createRecipe s u p nid = .ok (r, s₂)
      ∧ r.isForked = true ∧ r.parentRecipe = some pid ∧ r.modifications = none)
    ∧ (∀ r : Recipe, ∀ s₂ : Store, fork s pid u none nid = .ok (r, s₂) →
        r.modifications = some "Forked recipe") := by
  constructor
  · have hval : (p.title == "" || p.description == "" || p.ingredients.isEmpty
        || p.instructions.isEmpty) = false := by
      simp [htitle, hdesc, hing, hins]
    simp only [createRecipe, hval, Bool.false_eq_true, if_false, hp, hP, hm]
    exact ⟨_, _, rfl, rfl, rfl, rfl⟩
  · intro r s₂ h
    simp only [fork, hP] at h
    simp only [Except.ok.injEq, Prod.mk.injEq] at h
    obtain ⟨hr, -⟩ := h
    subst hr
    simp [jsOrString]

/-- A well-formed create payload referencing recipe 1 with no modifications
text. -/
def exPayloadFork : CreateRecipePayload :=
  { title := "Soup copy", description := "warm", ingredients := [⟨"salt", "1", none⟩]
    instructions := [⟨1, "mix"⟩], cookingTime := 20, servings := 2
    image := none, tags := none, parentRecipe := some 1, modifications := none }

/-- Witness for C10: creating from `exPayloadFork` in the sample store. -/
theorem create_as_fork_modifications_unset_witness :
    (exPayloadFork.title ≠ "" ∧ exPayloadFork.description ≠ ""
      ∧ exPayloadFork.ingredients ≠ [] ∧ exPayloadFork.instructions ≠ []
      ∧ exPayloadFork.parentRecipe = some 1
      ∧ findRecipe exStore 1 = some exRecipeA
      ∧ exPayloadFork.modifications = none)
    ∧ (∃ r : Recipe, ∃ s₂ : Store,
        createRecipe exStore 9 exPayloadFork 4 = .ok (r, s₂)
        ∧ r.isForked = true ∧ r.parentRecipe = some 1
        ∧ r.modifications = none) :=
  ⟨⟨by decide, by decide, by decide, by decide, by decide, by decide, by decide⟩,
    (create_as_fork_modifications_unset exStore 9 4 1 exPayloadFork exRecipeA
      (by decide) (by decide) (by decide) (by decide) (by decide) (by decide)
      (by decide)).1⟩

end RecipeHub
